import Mathlib

/-!
Verification development for the voice-cloner repository.

The definitions below are a shallow embedding, in Lean 4, of the Python
source files of the repository: `tts_factory.py`, `voice_cloner.py`,
`voice_cloning_app.py`, `engines/chatterbox_engine.py` and
`engines/coqui_engine.py`.  Python dictionaries are modelled as
association lists (insertion-ordered, first binding wins on lookup, which
matches a `dict` with unique keys), Python exceptions as `Except` values,
the file system and module loader as explicit read-only environments, and
numeric values as exact rationals.  Each theorem states one property of
the corresponding source function.
-/

namespace VoiceClonerRepo

/-- A Python value passed as an engine keyword argument. -/
inductive PVal where
  | str (s : String)
  | num (q : ℚ)
  | int (n : ℤ)
  | bool (b : Bool)
deriving Repr, DecidableEq

/-- A Python keyword-argument dictionary, as an association list in
insertion order.  Keys are unique in the dictionaries the source builds;
lookup returns the first binding. -/
abbrev Params := List (String × PVal)

/-- The dict-merge expression from `tts_factory.py` line 53:
merged kwargs with the override winning per key.  The keys of the default
dict come first (with overridden values), followed by the override-only
keys, matching CPython dict-literal merge order. -/
def mergeKwargs (defaults overrides : Params) : Params :=
  defaults.map (fun kv => (kv.1, ((overrides.lookup kv.1).getD kv.2))) ++
    overrides.filter (fun kv => (defaults.lookup kv.1).isNone)

/-- The engine registry of `TTSFactory` (`tts_factory.py` line 12):
engine name mapped to the engine class (identified by its name) and the
default constructor kwargs, in registration order. -/
abbrev Registry := List (String × String × Params)

/-- An engine instance as constructed by `TTSFactory.create`
(`tts_factory.py` line 56): the class that was instantiated together with
the constructor arguments it received. -/
structure EngineInstance where
  cls : String
  speaker_wav : String
  device : Option String
  kwargs : Params
deriving Repr, DecidableEq

/-- The error raised by `TTSFactory.create` for an unregistered engine
name (`tts_factory.py` lines 46-48): a `ValueError` whose message carries
the unknown name and the list of currently registered names. -/
inductive CreateErr where
  | unknownEngine (name : String) (available : List String)
deriving Repr, DecidableEq

/-- `TTSFactory.create` (`tts_factory.py` lines 32-56): looks the engine
name up in the registry; unknown names raise `ValueError` listing the
registered names; otherwise the default kwargs are merged with the call
kwargs (the call kwargs win per key) and the engine class is
instantiated. -/
def TTSFactory.create (reg : Registry) (engine_name speaker_wav : String)
    (device : Option String) (engine_kwargs : Params) :
    Except CreateErr EngineInstance :=
  match reg.lookup engine_name with
  | none => .error (.unknownEngine engine_name (reg.map Prod.fst))
  | some (cls, default_kwargs) =>
      .ok ⟨cls, speaker_wav, device, mergeKwargs default_kwargs engine_kwargs⟩

/-- First-defined choice between two optional values: how a merged dict
resolves a key, preferring the left (override) side. -/
def firstSome (a b : Option PVal) : Option PVal :=
  match a with
  | some v => some v
  | none => b

/-- The lowering `engine_name.lower()` used by `TTSFactory.is_available`. -/
def lowerStr (s : String) : String := String.mk (s.data.map Char.toLower)

/-- Python substring containment, `needle in hay`, on character lists. -/
def isSubstr (needle : List Char) : List Char → Bool
  | [] => needle.isEmpty
  | h :: t => needle.isPrefixOf (h :: t) || isSubstr needle t

/-- A Python exception, as far as the embedded code distinguishes them. -/
inductive PyErr where
  | importError (modName : String)
  | fileNotFound (path : String)
  | osError (msg : String)
deriving Repr, DecidableEq

/-- The process environment the factory probes: which Python modules the
interpreter can import. -/
structure PyEnv where
  importable : String → Bool

/-- A Python `import M` statement: succeeds when the module is loadable
and raises `ImportError` otherwise. -/
def importModule (env : PyEnv) (modName : String) : Except PyErr Unit :=
  if env.importable modName then .ok () else .error (.importError modName)

/-- The body of the `try` block in `TTSFactory.is_available`
(`tts_factory.py` lines 82-87): import `TTS` for names containing
"coqui", import `chatterbox` for names containing "chatterbox", then
return `True`. -/
def TTSFactory.availability_probe (env : PyEnv) (engine_name : String) :
    Except PyErr Bool :=
  if isSubstr ("coqui".data) (lowerStr engine_name).data then do
    importModule env ("TTS")
    pure true
  else if isSubstr ("chatterbox".data) (lowerStr engine_name).data then do
    importModule env ("chatterbox")
    pure true
  else
    pure true

/-- A Python `try`/`except ImportError` around a Bool-returning body. -/
def tryExceptImportError (body : Except PyErr Bool) (handler : String → Bool) :
    Except PyErr Bool :=
  match body with
  | .error (.importError m) => .ok (handler m)
  | r => r

/-- `TTSFactory.is_available` (`tts_factory.py` lines 73-89): `False` for
unregistered names, otherwise the probe result with `ImportError`
translated to `False`.  The result is `Except`-typed so that an escaping
exception would be observable as an `.error`. -/
def TTSFactory.is_available (env : PyEnv) (reg : Registry) (engine_name : String) :
    Except PyErr Bool :=
  if (reg.lookup engine_name).isNone then .ok false
  else tryExceptImportError (TTSFactory.availability_probe env engine_name)
    (fun _ => false)

/-- The declared type of a parameter in an engine parameter schema. -/
inductive PType where
  | float
  | int
  | str
deriving Repr, DecidableEq

/-- One entry of an engine parameter schema, as declared by
`get_supported_parameters` in the engine sources: the declared type,
default, free-text description, optional numeric bounds and optional
enumerated options. -/
structure ParamSpec where
  type : PType
  default : PVal
  description : String
  min : Option ℚ := none
  max : Option ℚ := none
  options : Option (List String) := none
deriving Repr, DecidableEq

/-- A parameter schema: parameter name mapped to its declared entry. -/
abbrev ParameterSchema := List (String × ParamSpec)

/-- `ChatterboxEngine.get_supported_parameters`
(`engines/chatterbox_engine.py` lines 97-114). -/
def chatterboxSchema : ParameterSchema :=
  [ ("cfg_weight",
      { type := .float, default := .num (1/2),
        description := "CFG weight - controls text adherence (0.0-1.0). Lower for fast speakers.",
        min := some 0, max := some 1 }),
    ("exaggeration",
      { type := .float, default := .num (1/2),
        description := "Expressiveness level (0.0-1.5). Higher = more dramatic.",
        min := some 0, max := some (3/2) }) ]

/-- `CoquiEngine.get_supported_parameters`
(`engines/coqui_engine.py` lines 99-121). -/
def coquiSchema : ParameterSchema :=
  [ ("language",
      { type := .str, default := .str "en",
        description := "Language code (en, es, fr, de, etc.)",
        options := some ["en", "es", "fr", "de", "it", "pt", "pl", "tr",
          "ru", "nl", "cs", "ar", "zh", "ja", "hu", "ko"] }),
    ("temperature",
      { type := .float, default := .num (7/10),
        description := "Sampling temperature (0.1-1.0)",
        min := some (1/10), max := some 1 }),
    ("gpt_cond_len",
      { type := .int, default := .int 128,
        description := "GPT conditioning length",
        min := some 32, max := some 256 }) ]

/-- The validation errors of the parameter validator (spec section 4.3). -/
inductive ParamError where
  | unknownParameter (key : String)
  | parameterOutOfRange (key : String) (value lo hi : ℚ)
  | invalidOption (key value : String) (allowed : List String)
deriving Repr, DecidableEq

/-- Modelled from the spec: section 4.3 specifies a `ParameterValidator`
component, but no implementation of it exists under `src/`; only the
schemas it reads (`get_supported_parameters` in the engine sources) are
implemented.  Checks one override value against one schema entry: a
numeric value must lie within the declared inclusive bounds, an
enumerated value must be a declared option. -/
def checkValue (key : String) (spec : ParamSpec) (v : PVal) :
    Except ParamError Unit :=
  match v with
  | .num q =>
      match spec.min, spec.max with
      | some lo, some hi =>
          if q < lo ∨ hi < q then .error (.parameterOutOfRange key q lo hi)
          else .ok ()
      | some lo, none =>
          if q < lo then .error (.parameterOutOfRange key q lo q) else .ok ()
      | none, some hi =>
          if hi < q then .error (.parameterOutOfRange key q q hi) else .ok ()
      | none, none => .ok ()
  | .int n =>
      match spec.min, spec.max with
      | some lo, some hi =>
          if (n : ℚ) < lo ∨ hi < (n : ℚ) then
            .error (.parameterOutOfRange key (n : ℚ) lo hi)
          else .ok ()
      | some lo, none =>
          if (n : ℚ) < lo then .error (.parameterOutOfRange key (n : ℚ) lo (n : ℚ))
          else .ok ()
      | none, some hi =>
          if hi < (n : ℚ) then .error (.parameterOutOfRange key (n : ℚ) (n : ℚ) hi)
          else .ok ()
      | none, none => .ok ()
  | .str s =>
      match spec.options with
      | some allowed =>
          if allowed.contains s then .ok ()
          else .error (.invalidOption key s allowed)
      | none => .ok ()
  | .bool _ => .ok ()

/-- Modelled from the spec: the `ParameterValidator` of section 4.3,
absent from `src/`.  Every override key must exist in the schema (else
`UnknownParameter`), and every value must satisfy its schema entry;
validation is all-or-nothing. -/
def validateParams (schema : ParameterSchema) (overrides : Params) :
    Except ParamError Unit :=
  match overrides with
  | [] => .ok ()
  | (k, v) :: rest =>
      match schema.lookup k with
      | none => .error (.unknownParameter k)
      | some spec => do
          checkValue k spec v
          validateParams schema rest

/-- Modelled from the spec: the creation pipeline of sections 4.3-4.4 in
which parameter validation runs strictly before engine construction; on a
validation error the factory `create` step is never reached, so no engine
instance is constructed and no state changes. -/
def createValidated (reg : Registry) (schema : ParameterSchema)
    (engine_name speaker_wav : String) (device : Option String)
    (overrides : Params) : Except (Sum ParamError CreateErr) EngineInstance :=
  match validateParams schema overrides with
  | .error e => .error (.inl e)
  | .ok () =>
      match TTSFactory.create reg engine_name speaker_wav device overrides with
      | .error e => .error (.inr e)
      | .ok inst => .ok inst

/-- A word character of the regular expression `\w` (ASCII range): a
letter, a digit or an underscore. -/
def isWordChar (c : Char) : Bool := c.isAlphanum || c = '_'

/-- Scanner equivalent to `re.findall` with the pattern of
`ChatterboxEngine.validate_text` (`engines/chatterbox_engine.py` line
152): bracket-delimited word tokens, scanned left to right without
overlap.  The accumulator is `some acc` while inside a candidate token
whose word characters read so far are `acc`.  When a candidate fails, the
scan restarts at the failing character; the skipped characters are word
characters and hence cannot open a token, so this matches the regex
engine's restart at the character after the opening bracket. -/
def scanTags : List Char → Option (List Char) → List String
  | [], _ => []
  | c :: rest, none =>
      if c = '[' then scanTags rest (some [])
      else scanTags rest none
  | c :: rest, some acc =>
      if isWordChar c then scanTags rest (some (acc ++ [c]))
      else if c = ']' && !acc.isEmpty then String.mk acc :: scanTags rest none
      else if c = '[' then scanTags rest (some [])
      else scanTags rest none

/-- `re.findall` of the tag pattern over a text, as used by
`validate_text`. -/
def findTags (cs : List Char) : List String := scanTags cs none

/-- Python `str.strip()`: remove leading and trailing whitespace. -/
def pyStrip (cs : List Char) : List Char :=
  ((cs.dropWhile Char.isWhitespace).reverse.dropWhile Char.isWhitespace).reverse

/-- The outcome message of `ChatterboxEngine.validate_text`, keeping the
data each message formats: the offending tag lists. -/
inductive VMsg where
  | ok
  | emptyText
  | tagsNotSupported (tags_found : List String)
  | unknownTags (invalid_tags supported : List String)
deriving Repr, DecidableEq

/-- The two capability variants of `ChatterboxEngine`
(`engines/chatterbox_engine.py` line 10). -/
inductive Variant where
  | turbo
  | standard
deriving Repr, DecidableEq

/-- `ChatterboxEngine.PARALINGUISTIC_TAGS`
(`engines/chatterbox_engine.py` line 20). -/
def PARALINGUISTIC_TAGS : List String :=
  ["laugh", "chuckle", "cough", "sigh", "gasp", "yawn"]

/-- `ChatterboxEngine.supports_paralinguistic_tags`
(`engines/chatterbox_engine.py` lines 128-131): only the turbo variant
declares tag support. -/
def supports_paralinguistic_tags : Variant → Bool
  | .turbo => true
  | .standard => false

/-- `ChatterboxEngine.validate_text` (`engines/chatterbox_engine.py`
lines 139-168): empty (after strip) text is invalid; bracket tokens on a
non-turbo variant are invalid; on turbo, tokens outside the declared tag
list are invalid with the offenders enumerated; otherwise valid. -/
def validate_text (variant : Variant) (text : String) : Bool × VMsg :=
  if (pyStrip text.data).isEmpty then (false, .emptyText)
  else
    let tags_found := findTags text.data
    if !tags_found.isEmpty && !supports_paralinguistic_tags variant then
      (false, .tagsNotSupported tags_found)
    else if !tags_found.isEmpty && supports_paralinguistic_tags variant then
      let invalid_tags := tags_found.filter (fun t => !PARALINGUISTIC_TAGS.contains t)
      if !invalid_tags.isEmpty then
        (false, .unknownTags invalid_tags PARALINGUISTIC_TAGS)
      else (true, .ok)
    else (true, .ok)

/-- Observable state of one `CloneThread` (`voice_cloning_app.py`):
running from `start()` until `run()` returns, then finished with success
(the `finished` signal was emitted) or failure (`error_occurred`). -/
inductive TaskState where
  | running
  | succeeded
  | failed
deriving Repr, DecidableEq

/-- Abstract state of a `VoiceCloningApp` window: the selected reference
path and every `CloneThread` the window has created, newest first; the
head of `tasks` is `self.clone_thread`. -/
structure AppState where
  voicePath : Option String
  tasks : List TaskState
deriving Repr, DecidableEq

/-- The ways `start_cloning` returns without starting a thread
(`voice_cloning_app.py` lines 234-273): the warning dialogs for a missing
voice reference, empty text and a generation already in progress, and the
critical dialog when copying the voice file fails. -/
inductive StartReject where
  | missingVoiceReference
  | missingText
  | generationInProgress
  | fileError
deriving Repr, DecidableEq

/-- The fresh window state: no voice file selected, no thread created. -/
def initAppState : AppState := { voicePath := none, tasks := [] }

/-- The guard `self.clone_thread and self.clone_thread.isRunning()`
(`voice_cloning_app.py` line 249). -/
def cloneThreadRunning (s : AppState) : Bool :=
  s.tasks.head? = some TaskState.running

/-- `VoiceCloningApp.start_cloning` (`voice_cloning_app.py` lines
234-281): reject when no voice file is selected; reject when the text is
empty after stripping; reject with the in-progress warning when the
current thread is still running (nothing is queued); reject when the
temporary copy of the voice file cannot be made; otherwise create and
start a new `CloneThread`. -/
def start_cloning (s : AppState) (text : String) (copyOk : Bool) :
    AppState × Option StartReject :=
  if s.voicePath.isNone then (s, some .missingVoiceReference)
  else if (pyStrip text.data).isEmpty then (s, some .missingText)
  else if cloneThreadRunning s then (s, some .generationInProgress)
  else if !copyOk then (s, some .fileError)
  else ({ s with tasks := TaskState.running :: s.tasks }, none)

/-- Completion of the current `CloneThread`: its `run()` returns after
emitting `finished` (success) or `error_occurred` (failure), so
`isRunning()` becomes false.  A no-op when no thread is running. -/
def finishTask (s : AppState) (ok : Bool) : AppState :=
  match s.tasks with
  | TaskState.running :: rest =>
      { s with tasks := (if ok then TaskState.succeeded else TaskState.failed) :: rest }
  | _ => s

/-- The user-visible events that change the window state. -/
inductive AppEvent where
  | selectVoice (path : String)
  | generate (text : String) (copyOk : Bool)
  | complete (ok : Bool)
deriving Repr, DecidableEq

/-- One step of the window state machine. -/
def appStep (s : AppState) (e : AppEvent) : AppState × Option StartReject :=
  match e with
  | .selectVoice p => ({ s with voicePath := some p }, none)
  | .generate text copyOk => start_cloning s text copyOk
  | .complete ok => (finishTask s ok, none)

/-- The state after a sequence of events from the fresh window state. -/
def runEvents (es : List AppEvent) : AppState :=
  es.foldl (fun s e => (appStep s e).1) initAppState

/-- The file-existence environment consulted through `os.path.exists`. -/
structure FileSys where
  pathExists : String → Bool

/-- Construction effects of `VoiceCloner.__init__` that the claims
observe: the TTS model object being built. -/
inductive InitStep where
  | ttsConstructed (model_name : String)
deriving Repr, DecidableEq

/-- The state a successfully constructed `VoiceCloner` holds
(`voice_cloner.py` lines 62-72). -/
structure VCState where
  device : String
  speaker_wav : String
  model_name : String
deriving Repr, DecidableEq

/-- `VoiceCloner.__init__` (`voice_cloner.py` lines 49-83): pick the
device, construct the TTS model (`self.tts = TTS(...)`, line 70), and
only then verify that the speaker reference file exists, raising
`FileNotFoundError` when it does not (lines 76-78).  Returns the
construction log alongside the result so that the order of effects is
observable. -/
def VoiceCloner.init (fs : FileSys) (model_name speaker_wav : String)
    (device : Option String) (cudaAvailable : Bool) :
    List InitStep × Except PyErr VCState :=
  let dev := device.getD (if cudaAvailable then ("cuda") else ("cpu"))
  let constructed := [InitStep.ttsConstructed model_name]
  if fs.pathExists speaker_wav then
    (constructed, .ok { device := dev, speaker_wav := speaker_wav, model_name := model_name })
  else
    (constructed, .error (.fileNotFound speaker_wav))

/-- Python `str(e)` for the embedded exceptions. -/
def errStr : PyErr → String
  | .importError m => String.append ("No module named ") m
  | .fileNotFound p => String.append ("Speaker reference file not found: ") p
  | .osError m => m

/-- The outcomes of the fallible steps inside `CloneThread.run`
(`voice_cloning_app.py` lines 43-61), as the environment determines them:
creating the temporary output directory, constructing the `VoiceCloner`
(engine and model loading included) and running `say` (generation,
persistence). -/
structure CloneEnv where
  mkdirResult : Except PyErr Unit
  clonerInit : Except PyErr Unit
  sayResult : Except PyErr Unit

/-- The Qt signals a `CloneThread` can emit (`voice_cloning_app.py`
lines 32-33): the completion channel back to the window. -/
inductive QtSignal where
  | finished (output_path text : String)
  | error_occurred (msg : String)
deriving Repr, DecidableEq

/-- The `try` block of `CloneThread.run`: make the output directory,
construct the cloner, generate, then emit `finished`. -/
def cloneRunBody (env : CloneEnv) (output_path text : String) :
    Except PyErr QtSignal := do
  env.mkdirResult
  env.clonerInit
  env.sayResult
  pure (.finished output_path text)

/-- A Python `try`/`except Exception` with a total handler: the result is
always the body value or the handler value, never a raised exception. -/
def pyTryExceptAll {α : Type} (body : Except PyErr α) (handler : PyErr → α) : α :=
  match body with
  | .ok a => a
  | .error e => handler e

/-- `CloneThread.run` (`voice_cloning_app.py` lines 43-61): the whole
body runs under `try`/`except Exception`, and the handler emits
`error_occurred(str(e))`.  The return value is the list of signals the
run emits; the function is total, so no exception crosses the thread
boundary. -/
def CloneThread.run (env : CloneEnv) (output_path text : String) : List QtSignal :=
  pyTryExceptAll ((cloneRunBody env output_path text).map (fun sig => [sig]))
    (fun e => [.error_occurred (errStr e)])

/-- Python `int()` applied to an exact rational: truncation toward
zero. -/
def pyInt (q : ℚ) : ℤ := Int.sign q.num * ((q.num.natAbs / q.den : ℕ) : ℤ)

/-- The call `sd.play(audio_data, adjusted_samplerate)` issued by
`VoiceCloner._play_audio`: the samples passed unchanged and the rate the
device is asked to play them at. -/
structure PlayAction where
  audio_data : List ℚ
  samplerate : ℤ
deriving Repr, DecidableEq

/-- `VoiceCloner._play_audio` (`voice_cloner.py` lines 152-165):
`adjusted_samplerate = int(samplerate * speed)`; the samples themselves
are not resampled, so the speed change is a sample-rate
reinterpretation. -/
def VoiceCloner.play_audio (audio_data : List ℚ) (samplerate : ℕ) (speed : ℚ) :
    PlayAction :=
  { audio_data := audio_data, samplerate := pyInt ((samplerate : ℚ) * speed) }

/-- The file-system state `_save_audio_to_file` can touch: existing
directories and written audio files (path, samples, declared rate). -/
structure FileStore where
  dirs : List String
  files : List (String × List ℚ × ℕ)
deriving Repr, DecidableEq

/-- `os.path.dirname`: the path up to the last slash (empty when the path
has no slash). -/
def dirname (p : String) : String :=
  match p.data.reverse.dropWhile (fun c => c ≠ '/') with
  | [] => ""
  | _ :: t => String.mk t.reverse

/-- `sf.write(save_path, audio_data, samplerate)`: writes the file when
the parent directory exists (a bare filename writes to the working
directory) and raises otherwise; it creates no directories. -/
def sf_write (fs : FileStore) (save_path : String) (audio_data : List ℚ)
    (samplerate : ℕ) : Except PyErr FileStore :=
  if dirname save_path = "" || fs.dirs.contains (dirname save_path) then
    .ok { fs with files := (save_path, audio_data, samplerate) :: fs.files }
  else
    .error (.osError (String.append ("No such file or directory: ") save_path))

/-- A line written to the logger. -/
inductive LogMsg where
  | info (msg : String)
  | logError (msg : String)
deriving Repr, DecidableEq

/-- `VoiceCloner._save_audio_to_file` (`voice_cloner.py` lines 138-150):
`sf.write` under `try`, and `except Exception as e` only logs the error;
the function always returns normally (`None`), so the caller observes no
failure. -/
def VoiceCloner.save_audio_to_file (fs : FileStore) (audio_data : List ℚ)
    (samplerate : ℕ) (save_path : String) : FileStore × List LogMsg :=
  match sf_write fs save_path audio_data samplerate with
  | .ok fs2 => (fs2, [.info (String.append ("Audio successfully saved to ") save_path)])
  | .error e => (fs, [.logError (errStr e)])

/-- The dtype of a NumPy array, as far as the claims observe it. -/
inductive DType where
  | float64
  | float32
deriving Repr, DecidableEq

/-- Decoded audio data as NumPy shapes it: one-dimensional (mono) or
two-dimensional with one row per frame and one column per channel. -/
inductive Audio where
  | mono (samples : List ℚ)
  | multi (frames : List (List ℚ))
deriving Repr, DecidableEq

/-- NumPy `mean(axis=1)` on a frames-by-channels array: the per-frame
average across channels.  Sample values are kept exact. -/
def npMeanAxis1 (frames : List (List ℚ)) : List ℚ :=
  frames.map (fun row => row.sum / (row.length : ℚ))

/-- `_ensure_mono` (`engines/coqui_engine.py` lines 14-18): arrays with
more than one dimension are averaged over axis 1, one-dimensional arrays
pass through. -/
def ensure_mono (a : Audio) : Audio :=
  match a with
  | .multi frames => .mono (npMeanAxis1 frames)
  | .mono samples => .mono samples

/-- An audio array together with its dtype.  `astype(np.float32)` is
modelled by the dtype tag; the value rounding to 32-bit precision is
abstracted, the sample values staying exact. -/
structure NdAudio where
  data : Audio
  dtype : DType
deriving Repr, DecidableEq

/-- The outcomes of the external steps inside `CoquiEngine.generate`:
the synthesis call writing the scratch WAV, and `sf.read` decoding it. -/
structure CoquiEnv where
  ttsToFileResult : Except PyErr Unit
  readResult : Except PyErr (NdAudio × ℕ)

/-- `CoquiEngine.generate` (`engines/coqui_engine.py` lines 64-97):
`mkstemp` creates the scratch WAV; the `try` block synthesizes into it,
decodes it, forces mono and casts to `float32`; the `finally` block
removes the scratch file whether the body succeeded or raised.  Returns
the body's outcome together with the final file list. -/
def CoquiEngine.generate (env : CoquiEnv) (fs : List String) (temp_path : String) :
    Except PyErr (NdAudio × ℕ) × List String :=
  let fs1 := temp_path :: fs
  let body : Except PyErr (NdAudio × ℕ) := do
    env.ttsToFileResult
    let (a, sample_rate) ← env.readResult
    pure ({ data := ensure_mono a.data, dtype := .float32 }, sample_rate)
  let fs2 := if fs1.contains temp_path then fs1.erase temp_path else fs1
  (body, fs2)

/-- A small concrete registry mirroring `_register_default_engines`
(`tts_factory.py` lines 92-126), used to instantiate theorems. -/
def demoRegistry : Registry :=
  [ ("coqui", ("CoquiEngine", [])),
    ("chatterbox-turbo", ("ChatterboxEngine", [("variant", PVal.str ("turbo"))])),
    ("chatterbox-standard", ("ChatterboxEngine", [("variant", PVal.str ("standard"))])) ]

/-- An interpreter environment in which no third-party module loads. -/
def noModulesEnv : PyEnv := { importable := fun _ => false }

/-- The inductive invariant of the window state machine: no thread other
than the current one (the head of `tasks`) is still running. -/
def TailNotRunning (s : AppState) : Prop :=
  s.tasks.tail.count TaskState.running = 0

/-- A window state with a voice file selected and one running thread,
used to instantiate theorems. -/
def busyAppState : AppState :=
  { voicePath := some ("v.wav"), tasks := [TaskState.running] }

/-- A file system on which no path exists. -/
def noFilesFS : FileSys := { pathExists := fun _ => false }

/-- A worker environment whose generation step raises. -/
def failingCloneEnv : CloneEnv :=
  { mkdirResult := .ok (), clonerInit := .ok (),
    sayResult := .error (.osError ("boom")) }

/-- A worker environment in which every step succeeds. -/
def okCloneEnv : CloneEnv :=
  { mkdirResult := .ok (), clonerInit := .ok (), sayResult := .ok () }

/-- An empty file store: no directories, no files. -/
def emptyStore : FileStore := { dirs := [], files := [] }

/-- A Coqui environment whose synthesis succeeds and whose decode yields
a two-channel file at 24000 Hz. -/
def coquiDemoEnv : CoquiEnv :=
  { ttsToFileResult := .ok (),
    readResult := .ok ({ data := .multi [[1, 3]], dtype := .float64 }, 24000) }

lemma lookup_filter_keep {p : String × PVal → Bool} (k : String)
    (o : Params) (hk : ∀ v, p (k, v) = true) :
    (o.filter p).lookup k = o.lookup k := by
  induction o with
  | nil => simp
  | cons kv rest ih =>
    obtain ⟨k1, v1⟩ := kv
    by_cases hkk : k1 = k
    · subst hkk
      simp [List.filter, hk v1, List.lookup]
    · have hbeq : (k == k1) = false := by
        simp [beq_iff_eq]
        exact fun h => hkk h.symm
      cases hp : p (k1, v1) <;> simp [List.filter, hp, List.lookup, hbeq, ih]

lemma lookup_append_cases (k : String) (l1 l2 : Params) :
    (l1 ++ l2).lookup k = firstSome (l1.lookup k) (l2.lookup k) := by
  induction l1 with
  | nil => simp [firstSome]
  | cons kv rest ih =>
    obtain ⟨k1, v1⟩ := kv
    by_cases hkk : k = k1
    · subst hkk
      simp [List.lookup, firstSome]
    · have hbeq : (k == k1) = false := by simpa [beq_iff_eq] using hkk
      simp [List.lookup, hbeq, ih]

lemma lookup_map_keyval (l overrides : Params) (k : String) :
    (l.map (fun kv => (kv.1, (overrides.lookup kv.1).getD kv.2))).lookup k =
      (l.lookup k).map (fun v => (overrides.lookup k).getD v) := by
  induction l with
  | nil => simp
  | cons kv rest ih =>
    obtain ⟨k1, v1⟩ := kv
    by_cases hkk : k = k1
    · subst hkk
      simp [List.lookup]
    · have hbeq : (k == k1) = false := by simpa [beq_iff_eq] using hkk
      simp [List.lookup, hbeq, ih]

/-- Per-key content of the dict merge: the override wins when present,
otherwise the default value is kept. -/
lemma lookup_mergeKwargs (defaults overrides : Params) (k : String) :
    (mergeKwargs defaults overrides).lookup k =
      firstSome (overrides.lookup k) (defaults.lookup k) := by
  unfold mergeKwargs
  rw [lookup_append_cases]
  rw [lookup_map_keyval]
  cases hd : defaults.lookup k with
  | some d =>
    cases ho : overrides.lookup k <;> simp [firstSome, hd, ho]
  | none =>
    have hkeep : ∀ v, (fun (kv : String × PVal) =>
        (defaults.lookup kv.1).isNone) (k, v) = true := by
      intro v; simp [hd]
    rw [lookup_filter_keep k overrides hkeep]
    cases ho : overrides.lookup k <;> simp [firstSome, hd, ho]

/-- Claim C2: `TTSFactory.create` on an unregistered engine name fails
with the unknown-engine error whose payload lists exactly the registered
names, constructing no instance; on a registered name it constructs the
instance with the default kwargs merged with the call kwargs, the call
kwargs winning per key. -/
theorem create_spec (reg : Registry) (engine_name speaker_wav : String)
    (device : Option String) (engine_kwargs : Params) :
    (reg.lookup engine_name = none →
       TTSFactory.create reg engine_name speaker_wav device engine_kwargs =
         .error (.unknownEngine engine_name (reg.map Prod.fst))) ∧
    (∀ cls default_kwargs,
       reg.lookup engine_name = some (cls, default_kwargs) →
       ∃ inst,
         TTSFactory.create reg engine_name speaker_wav device engine_kwargs = .ok inst ∧
         inst.cls = cls ∧ inst.speaker_wav = speaker_wav ∧ inst.device = device ∧
         ∀ k, inst.kwargs.lookup k =
           firstSome (engine_kwargs.lookup k) (default_kwargs.lookup k)) := by
  constructor
  · intro h
    simp [TTSFactory.create, h]
  · intro cls default_kwargs h
    refine ⟨⟨cls, speaker_wav, device, mergeKwargs default_kwargs engine_kwargs⟩,
      ?_, rfl, rfl, rfl, ?_⟩
    · simp [TTSFactory.create, h]
    · intro k
      exact lookup_mergeKwargs default_kwargs engine_kwargs k

/-- Witness for C2: on the default registry, an unknown name is rejected
with the three registered names listed, and the turbo engine is built
with the default variant overridden. -/
theorem create_spec_witness :
    TTSFactory.create demoRegistry ("mystery") ("v.wav") none [] =
      .error (.unknownEngine ("mystery") ["coqui", "chatterbox-turbo", "chatterbox-standard"]) ∧
    ∃ inst,
      TTSFactory.create demoRegistry ("chatterbox-turbo") ("v.wav") none
          [("variant", PVal.str ("custom"))] = .ok inst ∧
      inst.cls = "ChatterboxEngine" ∧ inst.speaker_wav = "v.wav" ∧
      inst.device = none ∧
      ∀ k, inst.kwargs.lookup k =
        firstSome ((([("variant", PVal.str ("custom"))] : Params).lookup k))
          ((([("variant", PVal.str ("turbo"))] : Params).lookup k)) := by
  constructor
  · exact (create_spec demoRegistry ("mystery") ("v.wav") none []).1 rfl
  · exact (create_spec demoRegistry ("chatterbox-turbo") ("v.wav") none
      [("variant", PVal.str ("custom"))]).2 ("ChatterboxEngine")
      [("variant", PVal.str ("turbo"))] rfl

lemma availability_probe_cases (env : PyEnv) (engine_name : String) :
    TTSFactory.availability_probe env engine_name = .ok true ∨
    ∃ m, TTSFactory.availability_probe env engine_name = .error (.importError m) := by
  unfold TTSFactory.availability_probe importModule
  split_ifs <;> first
    | exact Or.inl rfl
    | exact Or.inr ⟨_, rfl⟩

/-- Claim C4: `TTSFactory.is_available` never raises — for every
environment and every name it returns a boolean — and any failure of the
availability probe (the backing dependency cannot be imported) yields the
result `false` rather than an error. -/
theorem is_available_spec (env : PyEnv) (reg : Registry) (engine_name : String) :
    (∃ b, TTSFactory.is_available env reg engine_name = .ok b) ∧
    (∀ e, TTSFactory.availability_probe env engine_name = .error e →
       TTSFactory.is_available env reg engine_name = .ok false) := by
  unfold TTSFactory.is_available
  constructor
  · split_ifs with h
    · exact ⟨false, rfl⟩
    · rcases availability_probe_cases env engine_name with hp | ⟨m, hp⟩
      · exact ⟨true, by rw [hp]; rfl⟩
      · exact ⟨false, by rw [hp]; rfl⟩
  · intro e he
    split_ifs with h
    · rfl
    · rcases availability_probe_cases env engine_name with hp | ⟨m, hp⟩
      · rw [hp] at he; cases he
      · rw [hp]; rfl

/-- Witness for C4: with no third-party modules importable, probing a
registered engine name yields `false` rather than an exception. -/
theorem is_available_spec_witness :
    TTSFactory.is_available noModulesEnv demoRegistry ("coqui") = .ok false :=
  (is_available_spec noModulesEnv demoRegistry ("coqui")).2
    (.importError ("TTS")) rfl

lemma validateParams_mem_unknown (schema : ParameterSchema) (k : String) (v : PVal) :
    ∀ overrides : Params, (k, v) ∈ overrides → schema.lookup k = none →
      ∃ e, validateParams schema overrides = .error e := by
  intro overrides
  induction overrides with
  | nil => intro h; cases h
  | cons kv rest ih =>
    intro hmem hk
    obtain ⟨k1, v1⟩ := kv
    cases hl : schema.lookup k1 with
    | none => exact ⟨.unknownParameter k1, by simp [validateParams, hl]⟩
    | some spec =>
      cases hc : checkValue k1 spec v1 with
      | error e => exact ⟨e, by simp [validateParams, hl, hc]; rfl⟩
      | ok u =>
        cases u
        rcases List.mem_cons.mp hmem with heq | hrest
        · cases heq
          rw [hl] at hk; cases hk
        · obtain ⟨e, he⟩ := ih hrest hk
          exact ⟨e, by simp [validateParams, hl, hc, he]; rfl⟩

/-- Claim C5 (the `ParameterValidator` is modelled from the spec; no
implementation exists under `src/`): an override key absent from the
schema is rejected — with `UnknownParameter` naming it when it is
reached — a numeric value strictly outside the declared inclusive range
is rejected with `ParameterOutOfRange` while both boundary values are
accepted, and a validation error reaches the caller before `create`
runs, so no engine instance is constructed. -/
theorem parameter_validation_spec (schema : ParameterSchema) (overrides rest : Params)
    (k : String) (v : PVal) (q lo hi : ℚ) (spec : ParamSpec)
    (reg : Registry) (engine_name speaker_wav : String) (device : Option String) :
    (schema.lookup k = none → (k, v) ∈ overrides →
       ∃ e, validateParams schema overrides = .error e) ∧
    (schema.lookup k = none →
       validateParams schema ((k, v) :: rest) = .error (.unknownParameter k)) ∧
    (schema.lookup k = some spec → spec.min = some lo → spec.max = some hi →
       (lo ≤ q ∧ q ≤ hi → validateParams schema [(k, .num q)] = .ok ()) ∧
       (q < lo ∨ hi < q → validateParams schema [(k, .num q)] =
          .error (.parameterOutOfRange k q lo hi))) ∧
    (∀ e, validateParams schema overrides = .error e →
       createValidated reg schema engine_name speaker_wav device overrides =
         .error (.inl e)) := by
  refine ⟨?_, ?_, ?_, ?_⟩
  · intro hk hmem
    exact validateParams_mem_unknown schema k v overrides hmem hk
  · intro hk
    simp [validateParams, hk]
  · intro hk hlo hhi
    constructor
    · intro ⟨h1, h2⟩
      have hout : ¬ (q < lo ∨ hi < q) := by
        push_neg
        exact ⟨h1, h2⟩
      simp [validateParams, hk, checkValue, hlo, hhi, hout]
      rfl
    · intro hout
      simp [validateParams, hk, checkValue, hlo, hhi, hout]
      rfl
  · intro e he
    simp [createValidated, he]

/-- Witness for C5, on the chatterbox schema from the source: an unknown
key is rejected by name, the boundary value `max = 1` of `cfg_weight` is
accepted, an out-of-range `cfg_weight` is rejected with the offending
value and bounds, and the pipeline stops before construction on a
validation error. -/
theorem parameter_validation_spec_witness :
    validateParams chatterboxSchema [("tempo", PVal.num 1)] =
      .error (.unknownParameter ("tempo")) ∧
    validateParams chatterboxSchema [("cfg_weight", PVal.num 1)] = .ok () ∧
    validateParams chatterboxSchema [("cfg_weight", PVal.num 2)] =
      .error (.parameterOutOfRange ("cfg_weight") 2 0 1) ∧
    createValidated demoRegistry chatterboxSchema ("chatterbox-turbo") ("v.wav") none
      [("tempo", PVal.num 1)] = .error (.inl (.unknownParameter ("tempo"))) := by
  have hstop := parameter_validation_spec chatterboxSchema [("tempo", PVal.num 1)] []
    ("tempo") (PVal.num 1) 1 0 1
    { type := .float, default := .num (1/2), description := "" }
    demoRegistry ("chatterbox-turbo") ("v.wav") none
  refine ⟨?_, ?_, ?_, ?_⟩
  · exact (parameter_validation_spec chatterboxSchema [] [] ("tempo") (PVal.num 1)
      1 0 1 { type := .float, default := .num (1/2), description := "" }
      demoRegistry ("chatterbox-turbo") ("v.wav") none).2.1 rfl
  · exact ((parameter_validation_spec chatterboxSchema [] [] ("cfg_weight")
      (PVal.num 1) 1 0 1
      { type := .float, default := .num (1/2), description := "CFG weight - controls text adherence (0.0-1.0). Lower for fast speakers.", min := some 0, max := some 1 }
      demoRegistry ("chatterbox-turbo") ("v.wav") none).2.2.1 rfl rfl rfl).1
      ⟨by decide, by decide⟩
  · exact ((parameter_validation_spec chatterboxSchema [] [] ("cfg_weight")
      (PVal.num 2) 2 0 1
      { type := .float, default := .num (1/2), description := "CFG weight - controls text adherence (0.0-1.0). Lower for fast speakers.", min := some 0, max := some 1 }
      demoRegistry ("chatterbox-turbo") ("v.wav") none).2.2.1 rfl rfl rfl).2
      (Or.inr (by decide))
  · exact hstop.2.2.2 (.unknownParameter ("tempo")) (hstop.2.1 rfl)

lemma scanTags_no_bracket (cs : List Char) (h : '[' ∉ cs) :
    scanTags cs none = [] := by
  induction cs with
  | nil => rfl
  | cons c rest ih =>
    have hc : ¬ c = '[' := fun hc => h (hc ▸ List.mem_cons_self c rest)
    have hrest : '[' ∉ rest := fun hm => h (List.mem_cons_of_mem c hm)
    simp [scanTags, hc, ih hrest]

lemma pyStrip_nil_all_ws (cs : List Char) (h : pyStrip cs = []) :
    ∀ c ∈ cs, c.isWhitespace = true := by
  unfold pyStrip at h
  rw [List.reverse_eq_nil_iff] at h
  have hdrop2 : ∀ c ∈ (cs.dropWhile Char.isWhitespace).reverse, c.isWhitespace = true := by
    intro c hc
    exact List.dropWhile_eq_nil_iff.mp h c hc
  have hdrop : ∀ c ∈ cs.dropWhile Char.isWhitespace, c.isWhitespace = true := by
    intro c hc
    exact hdrop2 c (List.mem_reverse.mpr hc)
  intro c hc
  rw [← List.takeWhile_append_dropWhile (p := Char.isWhitespace) (l := cs)] at hc
  rcases List.mem_append.mp hc with htake | hdropm
  · exact List.mem_takeWhile_imp htake
  · exact hdrop c hdropm

lemma findTags_ne_nil_strip_ne_nil (cs : List Char) (h : findTags cs ≠ []) :
    pyStrip cs ≠ [] := by
  intro hstrip
  apply h
  apply scanTags_no_bracket
  intro hmem
  have := pyStrip_nil_all_ws cs hstrip '[' hmem
  simp [Char.isWhitespace] at this

/-- Claim C3 (amended: text that is empty after stripping is invalid with
the empty-text message, even though it contains no tokens): non-empty
text with no bracket-delimited tokens is valid on every variant; text
with tokens is invalid on the non-tag-supporting variant; on the
tag-supporting variant such text is valid exactly when every token is a
declared tag, and otherwise invalid with the offending tokens enumerated
in the message. -/
theorem validate_text_spec (variant : Variant) (text : String) :
    (pyStrip text.data ≠ [] → findTags text.data = [] →
       validate_text variant text = (true, .ok)) ∧
    (findTags text.data ≠ [] → supports_paralinguistic_tags variant = false →
       validate_text variant text = (false, .tagsNotSupported (findTags text.data))) ∧
    (findTags text.data ≠ [] → supports_paralinguistic_tags variant = true →
       ((validate_text variant text).1 = true ↔
          ∀ t ∈ findTags text.data, t ∈ PARALINGUISTIC_TAGS) ∧
       (∀ bad, bad = (findTags text.data).filter
            (fun t => !PARALINGUISTIC_TAGS.contains t) → bad ≠ [] →
          validate_text variant text = (false, .unknownTags bad PARALINGUISTIC_TAGS))) := by
  refine ⟨?_, ?_, ?_⟩
  · intro hs ht
    have hs2 : (pyStrip text.data).isEmpty = false := by
      simpa [List.isEmpty_iff] using hs
    simp [validate_text, hs2, ht]
  · intro ht hv
    have hs2 : (pyStrip text.data).isEmpty = false := by
      simpa [List.isEmpty_iff] using findTags_ne_nil_strip_ne_nil text.data ht
    have ht2 : (findTags text.data).isEmpty = false := by
      simpa [List.isEmpty_iff] using ht
    simp [validate_text, hs2, ht2, hv]
  · intro ht hv
    have hs2 : (pyStrip text.data).isEmpty = false := by
      simpa [List.isEmpty_iff] using findTags_ne_nil_strip_ne_nil text.data ht
    have ht2 : (findTags text.data).isEmpty = false := by
      simpa [List.isEmpty_iff] using ht
    have hfilter_iff : ((findTags text.data).filter
        (fun t => !PARALINGUISTIC_TAGS.contains t) = []) ↔
        ∀ t ∈ findTags text.data, t ∈ PARALINGUISTIC_TAGS := by
      rw [List.filter_eq_nil_iff]
      constructor
      · intro h t htm
        simpa using h t htm
      · intro h t htm
        simpa using h t htm
    constructor
    · cases hbad : (findTags text.data).filter
        (fun t => !PARALINGUISTIC_TAGS.contains t) with
      | nil =>
        have hall : ∀ t ∈ findTags text.data, t ∈ PARALINGUISTIC_TAGS :=
          hfilter_iff.mp hbad
        have hvt : validate_text variant text = (true, .ok) := by
          simp only [validate_text, hs2, ht2, hv, hbad]
          simp
        rw [hvt]
        exact ⟨fun _ => hall, fun _ => rfl⟩
      | cons b bs =>
        have hvt : validate_text variant text =
            (false, .unknownTags (b :: bs) PARALINGUISTIC_TAGS) := by
          simp only [validate_text, hs2, ht2, hv, hbad]
          simp
        have hnotall : ¬ ∀ t ∈ findTags text.data, t ∈ PARALINGUISTIC_TAGS := by
          intro hall
          have hnil := hfilter_iff.mpr hall
          rw [hbad] at hnil
          cases hnil
        rw [hvt]
        constructor
        · intro hfalse
          exact absurd hfalse (by simp)
        · intro hall
          exact absurd hall hnotall
    · intro bad hbaddef hbadne
      cases hbadcase : (findTags text.data).filter
        (fun t => !PARALINGUISTIC_TAGS.contains t) with
      | nil =>
        rw [hbadcase] at hbaddef
        exact absurd hbaddef hbadne
      | cons b bs =>
        rw [hbaddef, hbadcase]
        simp only [validate_text, hs2, ht2, hv, hbadcase]
        simp

/-- Counterexample to C3 as stated: the empty text contains no
bracket-delimited token, yet `validate_text` reports it invalid (with the
empty-text message) on both variants, because the emptiness check runs
before any token handling. -/
theorem validate_text_empty_counterexample :
    findTags ("".data) = [] ∧
    validate_text .turbo ("") = (false, .emptyText) ∧
    validate_text .standard ("") = (false, .emptyText) :=
  ⟨rfl, rfl, rfl⟩

/-- Witness for C3: plain text is valid on turbo; a known tag is rejected
on standard and governed by the membership condition on turbo; an unknown
tag is rejected on turbo with the offender enumerated. -/
theorem validate_text_spec_witness :
    validate_text .turbo ("hello world") = (true, .ok) ∧
    validate_text .standard ("hi [laugh]") =
      (false, .tagsNotSupported ["laugh"]) ∧
    ((validate_text .turbo ("hi [laugh]")).1 = true ↔
       ∀ t ∈ findTags (("hi [laugh]" : String).data), t ∈ PARALINGUISTIC_TAGS) ∧
    validate_text .turbo ("hi [foo]") =
      (false, .unknownTags ["foo"] PARALINGUISTIC_TAGS) := by
  refine ⟨?_, ?_, ?_, ?_⟩
  · exact (validate_text_spec .turbo ("hello world")).1 (by decide) (by decide)
  · exact (validate_text_spec .standard ("hi [laugh]")).2.1 (by decide) rfl
  · exact ((validate_text_spec .turbo ("hi [laugh]")).2.2 (by decide) rfl).1
  · exact ((validate_text_spec .turbo ("hi [foo]")).2.2 (by decide) rfl).2
      ["foo"] (by decide) (by decide)

lemma appStep_tail_not_running (s : AppState) (e : AppEvent)
    (h : TailNotRunning s) : TailNotRunning (appStep s e).1 := by
  cases e with
  | selectVoice p => simpa [appStep, TailNotRunning] using h
  | complete ok =>
    cases hts : s.tasks with
    | nil => simp_all [appStep, finishTask, TailNotRunning, hts]
    | cons t rest =>
      unfold TailNotRunning at h ⊢
      rw [hts] at h
      cases t <;> cases ok <;> simp_all [appStep, finishTask, hts]
  | generate text copyOk =>
    show TailNotRunning (start_cloning s text copyOk).1
    unfold start_cloning
    split_ifs with h1 h2 h3 h4
    · exact h
    · exact h
    · exact h
    · exact h
    · unfold TailNotRunning at h ⊢
      show List.count TaskState.running (TaskState.running :: s.tasks).tail = 0
      rw [List.tail_cons]
      cases hts : s.tasks with
      | nil => simp
      | cons t rest =>
        rw [hts] at h
        rw [List.tail_cons] at h
        have hrunf : cloneThreadRunning s = false := by
          cases hcr : cloneThreadRunning s
          · rfl
          · exact absurd hcr h3
        unfold cloneThreadRunning at hrunf
        rw [hts] at hrunf
        cases t with
        | running => simp at hrunf
        | succeeded => simp [List.count_cons, h]
        | failed => simp [List.count_cons, h]

lemma runEvents_tail_not_running (es : List AppEvent) :
    TailNotRunning (runEvents es) := by
  unfold runEvents
  have hgen : ∀ s : AppState, TailNotRunning s →
      TailNotRunning (es.foldl (fun s e => (appStep s e).1) s) := by
    induction es with
    | nil => intro s h; exact h
    | cons e rest ih =>
      intro s h
      exact ih (appStep s e).1 (appStep_tail_not_running s e h)
  exact hgen initAppState (by simp [TailNotRunning, initAppState])

/-- Claim C1: in every state reachable from the fresh window, at most one
generation task is running; a `generate` issued with a valid request
while the current thread is running is rejected with the in-progress
warning and changes nothing (never queued); and after that thread
completes — with success or failure alike — the same request is
accepted and starts a new running task. -/
theorem single_flight_spec (es : List AppEvent) (s : AppState)
    (rest : List TaskState) (p text : String) (copyOk ok : Bool) :
    (runEvents es).tasks.count TaskState.running ≤ 1 ∧
    (s.voicePath = some p → pyStrip text.data ≠ [] →
       cloneThreadRunning s = true →
       start_cloning s text copyOk = (s, some .generationInProgress)) ∧
    (s.voicePath = some p → pyStrip text.data ≠ [] →
       s.tasks = TaskState.running :: rest →
       start_cloning (finishTask s ok) text true =
         ({ voicePath := s.voicePath,
            tasks := TaskState.running ::
              (if ok then TaskState.succeeded else TaskState.failed) :: rest },
          none)) := by
  refine ⟨?_, ?_, ?_⟩
  · have hinv := runEvents_tail_not_running es
    unfold TailNotRunning at hinv
    cases hts : (runEvents es).tasks with
    | nil => simp
    | cons t rest2 =>
      rw [hts] at hinv
      simp only [List.tail_cons] at hinv
      cases t <;> simp [List.count_cons, hinv]
  · intro hp hstrip hrun
    have h1 : s.voicePath.isNone = false := by rw [hp]; rfl
    have h2 : (pyStrip text.data).isEmpty = false := by
      simpa [List.isEmpty_iff] using hstrip
    simp [start_cloning, h1, h2, hrun]
  · intro hp hstrip hts
    have hfin : finishTask s ok =
        { voicePath := s.voicePath,
          tasks := (if ok then TaskState.succeeded else TaskState.failed) :: rest } := by
      simp [finishTask, hts]
    have h1 : s.voicePath.isNone = false := by rw [hp]; rfl
    have h2 : (pyStrip text.data).isEmpty = false := by
      simpa [List.isEmpty_iff] using hstrip
    rw [hfin]
    cases ok <;> simp [start_cloning, h1, h2, cloneThreadRunning]

/-- Witness for C1: with a voice selected and one thread running, a
second generate is rejected in-progress and leaves the state unchanged;
after the running thread fails, the same generate is accepted; and the
running-task count stays at most one along a concrete event run. -/
theorem single_flight_spec_witness :
    start_cloning busyAppState ("hello") true =
      (busyAppState, some .generationInProgress) ∧
    start_cloning (finishTask busyAppState false) ("hello") true =
      ({ voicePath := some ("v.wav"),
         tasks := [TaskState.running, TaskState.failed] }, none) ∧
    (runEvents [AppEvent.selectVoice ("v.wav"),
        AppEvent.generate ("hello") true]).tasks.count TaskState.running ≤ 1 := by
  refine ⟨?_, ?_, ?_⟩
  · exact (single_flight_spec [] busyAppState [] ("v.wav") ("hello")
      true false).2.1 rfl (by decide) rfl
  · exact (single_flight_spec [] busyAppState [] ("v.wav") ("hello")
      true false).2.2 rfl (by decide) rfl
  · exact (single_flight_spec [AppEvent.selectVoice ("v.wav"),
      AppEvent.generate ("hello") true] initAppState [] ("v.wav") ("hello")
      true false).1

/-- Counterexample to C6 as stated: constructing `VoiceCloner` on a file
system without the reference file does fail with `FileNotFoundError`, but
the construction log shows the TTS model was already constructed, so the
failure does not occur before the model instance is built. -/
theorem init_counterexample :
    (VoiceCloner.init noFilesFS ("tts_models/multilingual/multi-dataset/xtts_v2")
        ("missing.wav") none false).2 = .error (.fileNotFound ("missing.wav")) ∧
    (VoiceCloner.init noFilesFS ("tts_models/multilingual/multi-dataset/xtts_v2")
        ("missing.wav") none false).1 =
      [.ttsConstructed ("tts_models/multilingual/multi-dataset/xtts_v2")] :=
  ⟨rfl, rfl⟩

/-- Claim C6 (amended: construction with a nonexistent reference path
always fails with `FileNotFoundError` — a resource error — but only
after the TTS model has been constructed, because `__init__` builds
`self.tts` before checking the path): for every such file system the
result is the file-not-found error and the log records the prior model
construction. -/
theorem init_missing_reference_spec (fs : FileSys)
    (model_name speaker_wav : String) (device : Option String) (cuda : Bool)
    (h : fs.pathExists speaker_wav = false) :
    (VoiceCloner.init fs model_name speaker_wav device cuda).2 =
      .error (.fileNotFound speaker_wav) ∧
    (VoiceCloner.init fs model_name speaker_wav device cuda).1 =
      [.ttsConstructed model_name] := by
  unfold VoiceCloner.init
  rw [h]
  exact ⟨rfl, rfl⟩

/-- Witness for C6 (amended): a concrete construction attempt on an
empty file system. -/
theorem init_missing_reference_spec_witness :
    (VoiceCloner.init noFilesFS ("m") ("ref.wav") none true).2 =
      .error (.fileNotFound ("ref.wav")) ∧
    (VoiceCloner.init noFilesFS ("m") ("ref.wav") none true).1 =
      [.ttsConstructed ("m")] :=
  init_missing_reference_spec noFilesFS ("m") ("ref.wav") none true rfl

/-- Claim C7: `CloneThread.run` always emits exactly one signal on the
completion channel — `finished` on success, `error_occurred(str(e))` when
any step of the body raises — and, being total, lets no exception escape
across the thread boundary. -/
theorem clone_run_spec (env : CloneEnv) (output_path text : String) :
    (∃ sig, CloneThread.run env output_path text = [sig]) ∧
    (∀ e, cloneRunBody env output_path text = .error e →
       CloneThread.run env output_path text = [.error_occurred (errStr e)]) ∧
    (∀ sig, cloneRunBody env output_path text = .ok sig →
       CloneThread.run env output_path text = [sig]) := by
  refine ⟨?_, ?_, ?_⟩
  · cases hb : cloneRunBody env output_path text with
    | ok sig =>
      exact ⟨sig, by unfold CloneThread.run pyTryExceptAll; rw [hb]; rfl⟩
    | error e =>
      exact ⟨.error_occurred (errStr e),
        by unfold CloneThread.run pyTryExceptAll; rw [hb]; rfl⟩
  · intro e he
    unfold CloneThread.run pyTryExceptAll
    rw [he]
    rfl
  · intro sig hs
    unfold CloneThread.run pyTryExceptAll
    rw [hs]
    rfl

/-- Witness for C7: a worker whose generation step raises delivers the
message through the channel; a fully successful worker delivers
`finished`. -/
theorem clone_run_spec_witness :
    CloneThread.run failingCloneEnv ("out.wav") ("hi") =
      [.error_occurred ("boom")] ∧
    CloneThread.run okCloneEnv ("out.wav") ("hi") = [.finished ("out.wav") ("hi")] :=
  ⟨(clone_run_spec failingCloneEnv ("out.wav") ("hi")).2.1 (.osError ("boom")) rfl,
   (clone_run_spec okCloneEnv ("out.wav") ("hi")).2.2 (.finished ("out.wav") ("hi")) rfl⟩

lemma pyInt_natCast (n : ℕ) : pyInt ((n : ℕ) : ℚ) = n := by
  unfold pyInt
  rw [Rat.num_natCast, Rat.den_natCast, Nat.div_one]
  exact_mod_cast Int.sign_mul_natAbs (n : ℤ)

/-- Claim C8 (amended: the effective playback rate is
`int(sampleRate × speedMultiplier)`, the truncation toward zero of the
product, not the exact product when the product is fractional): the
samples are passed to the device unchanged (a sample-rate
reinterpretation), the rate is the truncated product, and with
`speedMultiplier = 2.0` it is exactly double the original rate. -/
theorem play_audio_spec (audio_data : List ℚ) (samplerate : ℕ) (speed : ℚ) :
    (VoiceCloner.play_audio audio_data samplerate speed).audio_data = audio_data ∧
    (VoiceCloner.play_audio audio_data samplerate speed).samplerate =
      pyInt ((samplerate : ℚ) * speed) ∧
    (VoiceCloner.play_audio audio_data samplerate 2).samplerate =
      2 * (samplerate : ℤ) := by
  refine ⟨rfl, rfl, ?_⟩
  show pyInt ((samplerate : ℚ) * 2) = 2 * (samplerate : ℤ)
  have hcast : ((samplerate : ℚ) * 2) = ((2 * samplerate : ℕ) : ℚ) := by
    push_cast
    ring
  rw [hcast, pyInt_natCast]
  push_cast
  ring

/-- Counterexample to C8 as stated: at sample rate 22050 and speed 1/4
(the float 0.25), the computed rate is `int(22050 * 0.25) = 5512`, which
differs from the exact product 5512.5, so the effective rate is not
`sampleRate × speedMultiplier` for every speed. -/
theorem play_audio_counterexample :
    (VoiceCloner.play_audio [] 22050 (mkRat 1 4)).samplerate = 5512 ∧
    ((5512 : ℚ) ≠ (22050 : ℚ) * mkRat 1 4) := by
  have hq : ((22050 : ℕ) : ℚ) * mkRat 1 4 = mkRat 11025 2 := by
    rw [Rat.mkRat_eq_div, Rat.mkRat_eq_div]
    push_cast
    norm_num
  constructor
  · show pyInt (((22050 : ℕ) : ℚ) * mkRat 1 4) = 5512
    rw [hq]
    decide
  · rw [show ((22050 : ℚ) : ℚ) = (((22050 : ℕ) : ℚ)) by push_cast; ring, hq]
    rw [Rat.mkRat_eq_div]
    norm_num

/-- Claim C9 (amended: `_save_audio_to_file` hands the samples to
`sf.write` in a single call and always returns normally: an I/O error is
caught and only logged, never surfaced to the caller, and missing parent
directories are not created): the directory set is never changed, a
failed write leaves the store untouched and produces only a log line,
and a successful write records the file. -/
theorem save_audio_spec (fs : FileStore) (audio_data : List ℚ)
    (samplerate : ℕ) (save_path : String) :
    (VoiceCloner.save_audio_to_file fs audio_data samplerate save_path).1.dirs =
      fs.dirs ∧
    (∀ e, sf_write fs save_path audio_data samplerate = .error e →
       VoiceCloner.save_audio_to_file fs audio_data samplerate save_path =
         (fs, [.logError (errStr e)])) ∧
    (∀ fs2, sf_write fs save_path audio_data samplerate = .ok fs2 →
       VoiceCloner.save_audio_to_file fs audio_data samplerate save_path =
         (fs2, [.info (String.append ("Audio successfully saved to ") save_path)])) := by
  refine ⟨?_, ?_, ?_⟩
  · cases hw : sf_write fs save_path audio_data samplerate with
    | ok fs2 =>
      have hdirs : fs2.dirs = fs.dirs := by
        unfold sf_write at hw
        split_ifs at hw with hc
        injection hw with h2
        rw [← h2]
      simp [VoiceCloner.save_audio_to_file, hw, hdirs]
    | error e =>
      simp [VoiceCloner.save_audio_to_file, hw]
  · intro e he
    simp [VoiceCloner.save_audio_to_file, he]
  · intro fs2 hok
    simp [VoiceCloner.save_audio_to_file, hok]

/-- Counterexample to C9 as stated: writing to `out/a.wav` on a store
with no directories fails inside `sf.write`, yet `_save_audio_to_file`
returns normally with the store unchanged — the missing parent directory
is not created, no file is written, and the error is only logged, not
surfaced to the caller. -/
theorem save_audio_counterexample :
    VoiceCloner.save_audio_to_file emptyStore [1] 22050 ("out/a.wav") =
      (emptyStore,
       [.logError (String.append ("No such file or directory: ") ("out/a.wav"))]) :=
  rfl

/-- Witness for C9 (amended): the failed write above via the theorem, and
a successful bare-filename write recording the file. -/
theorem save_audio_spec_witness :
    VoiceCloner.save_audio_to_file emptyStore [1] 22050 ("out/a.wav") =
      (emptyStore,
       [.logError (String.append ("No such file or directory: ") ("out/a.wav"))]) ∧
    VoiceCloner.save_audio_to_file emptyStore [1] 22050 ("a.wav") =
      ({ dirs := [], files := [("a.wav", [1], 22050)] },
       [.info (String.append ("Audio successfully saved to ") ("a.wav"))]) :=
  ⟨(save_audio_spec emptyStore [1] 22050 ("out/a.wav")).2.1
      (.osError (String.append ("No such file or directory: ") ("out/a.wav"))) rfl,
   (save_audio_spec emptyStore [1] 22050 ("a.wav")).2.2
      { dirs := [], files := [("a.wav", [1], 22050)] } rfl⟩

/-- Claim C10: `CoquiEngine.generate` removes the scratch WAV on success
and failure alike (the final file list equals the original), and on
success returns a one-dimensional `float32` array in which the channels
of a multi-channel decode are averaged into mono. -/
theorem coqui_generate_spec (env : CoquiEnv) (fs : List String) (temp_path : String) :
    (CoquiEngine.generate env fs temp_path).2 = fs ∧
    (∀ a sr, env.ttsToFileResult = .ok () → env.readResult = .ok (a, sr) →
       (CoquiEngine.generate env fs temp_path).1 =
         .ok ({ data := ensure_mono a.data, dtype := .float32 }, sr) ∧
       ∃ samples, ensure_mono a.data = .mono samples ∧
         (∀ frames, a.data = .multi frames → samples = npMeanAxis1 frames)) ∧
    (∀ e, env.ttsToFileResult = .error e →
       (CoquiEngine.generate env fs temp_path).1 = .error e) := by
  refine ⟨?_, ?_, ?_⟩
  · show (if (temp_path :: fs).contains temp_path then (temp_path :: fs).erase temp_path
        else temp_path :: fs) = fs
    rw [if_pos (by simp)]
    exact List.erase_cons_head temp_path fs
  · intro a sr htts hread
    constructor
    · show (do
          env.ttsToFileResult
          let (a2, sample_rate) ← env.readResult
          pure ({ data := ensure_mono a2.data, dtype := DType.float32 }, sample_rate) :
            Except PyErr (NdAudio × ℕ)) =
        .ok ({ data := ensure_mono a.data, dtype := .float32 }, sr)
      rw [htts, hread]
      rfl
    · cases hd : a.data with
      | mono samples =>
        exact ⟨samples, rfl, fun frames hf => by cases hf⟩
      | multi frames =>
        refine ⟨npMeanAxis1 frames, rfl, ?_⟩
        intro frames2 hf
        cases hf
        rfl
  · intro e he
    show (do
        env.ttsToFileResult
        let (a2, sample_rate) ← env.readResult
        pure ({ data := ensure_mono a2.data, dtype := DType.float32 }, sample_rate) :
          Except PyErr (NdAudio × ℕ)) = .error e
    rw [he]
    rfl

/-- Witness for C10: a successful two-channel generation averages the
channels to mono at the decoded rate, with the scratch file gone. -/
theorem coqui_generate_spec_witness :
    (CoquiEngine.generate coquiDemoEnv [] ("tmp.wav")).2 = [] ∧
    (CoquiEngine.generate coquiDemoEnv [] ("tmp.wav")).1 =
      .ok ({ data := .mono [2], dtype := .float32 }, 24000) := by
  have h := coqui_generate_spec coquiDemoEnv [] ("tmp.wav")
  refine ⟨h.1, ?_⟩
  have h2 := (h.2.1 { data := .multi [[1, 3]], dtype := .float64 } 24000 rfl rfl).1
  rw [h2]
  have hmean : npMeanAxis1 [[1, 3]] = [2] := by
    unfold npMeanAxis1
    norm_num
  simp [ensure_mono, hmean]

end VoiceClonerRepo
